import Mathlib

/-!
Verification development for the exam-backend violation aggregation core.

The definitions below are a shallow embedding of `src/events.py` and
`src/app.py`.  The external Supabase record store is modelled as a list of
rows (`List Record`); each Supabase call of the source is modelled as the
corresponding pure transformation of that list.  Timestamp columns
(`created_at`, `updated_at`, `evaluated_at`) and the score columns of
`submit_test` are elided: no claim depends on them.  Random UUIDs are
modelled by an explicit `freshId : String` parameter.
-/

namespace ExamBackend

/-- events.py line 19: the set `VALID_COLUMNS` of recognized violation
categories (modelled as a list; the Python set's iteration order is
unspecified, which only affects the order of summary strings). -/
def VALID_COLUMNS : List String :=
  ["tab_switches", "inactivities", "text_selections", "copies",
   "pastes", "right_clicks", "face_not_visible"]

/-- events.py line 29: `LEGACY_MAP`, mapping legacy single-violation names
to column names.  Note: this constant is never referenced anywhere else in
the source. -/
def LEGACY_MAP : List (String × String) :=
  [("tab_switch", "tab_switches"), ("inactivity", "inactivities"),
   ("text_selection", "text_selections"), ("copy", "copies"),
   ("paste", "pastes"), ("right_click", "right_clicks"),
   ("face_not_visible", "face_not_visible")]

/-- The per-category integer counters of a `test_results` row: one column
per element of `VALID_COLUMNS`. -/
structure Counters where
  tab_switches : Int
  inactivities : Int
  text_selections : Int
  copies : Int
  pastes : Int
  right_clicks : Int
  face_not_visible : Int
deriving Repr, DecidableEq

/-- All violation counters zero (events.py lines 100-106 initialize every
violation column to 0). -/
def Counters.zero : Counters := ⟨0, 0, 0, 0, 0, 0, 0⟩

/-- Read a counter by column name; unknown names read as 0, mirroring
Python's `record.get(col, 0)`. -/
def Counters.get (c : Counters) : String → Int
  | "tab_switches" => c.tab_switches
  | "inactivities" => c.inactivities
  | "text_selections" => c.text_selections
  | "copies" => c.copies
  | "pastes" => c.pastes
  | "right_clicks" => c.right_clicks
  | "face_not_visible" => c.face_not_visible
  | _ => 0

/-- Build the counters from a function on column names: the Lean image of a
Python dict comprehension `{col: f(col) for col in VALID_COLUMNS}`. -/
def countersOf (f : String → Int) : Counters :=
  { tab_switches := f "tab_switches", inactivities := f "inactivities",
    text_selections := f "text_selections", copies := f "copies",
    pastes := f "pastes", right_clicks := f "right_clicks",
    face_not_visible := f "face_not_visible" }

/-- A row of the `test_results` table (the Aggregate Record), restricted to
the columns the claims are about. -/
structure Record where
  id : String
  exam_id : Option String := none
  question_set_id : String
  candidate_id : Option String := none
  candidate_email : Option String := none
  candidate_name : String := ""
  status : String := ""
  raw_feedback : String := ""
  counters : Counters := Counters.zero
deriving Repr, DecidableEq

/-- An inbound `suspicious_event` payload (events.py line 138, the `data`
dict).  `fields` holds the per-category integer entries of the dict;
`legacy_violation` models a legacy single-violation-name entry (one
violation name, implicit count 1); `event_id` models a client-supplied
event identifier.  The handler in the source reads none of the latter two. -/
structure EventData where
  question_set_id : Option String := none
  candidate_email : Option String := none
  candidate_id : Option String := none
  candidate_name : Option String := none
  event_id : Option String := none
  legacy_violation : Option String := none
  fields : List (String × Int) := []
deriving Repr, DecidableEq

/-- `data.get(col, 0)`: look a category field up in the event payload,
defaulting to 0. -/
def EventData.get (e : EventData) (col : String) : Int :=
  (e.fields.lookup col).getD 0

/-- The contribution of a category after the handler's positivity filter
(events.py lines 154-155): `increments` keeps only entries with value > 0,
and `increments.get(col, 0)` then yields the value when positive, else 0. -/
def posIncrement (e : EventData) (col : String) : Int :=
  if 0 < e.get col then e.get col else 0

/-- events.py lines 51-56: the first lookup of `find_or_create_test_result`,
`eq("question_set_id", q).eq("candidate_id", cid)`.  A SQL equality filter
against NULL matches no row, hence the `isSome` conjunct. -/
def matchesById (q : String) (cid : Option String) (r : Record) : Bool :=
  r.question_set_id == q && cid.isSome && r.candidate_id == cid

/-- events.py lines 63-68: the fallback lookup by
`eq("question_set_id", q).eq("candidate_email", em)`. -/
def matchesByEmail (q : String) (em : String) (r : Record) : Bool :=
  r.question_set_id == q && r.candidate_email == some em

/-- events.py lines 82-107: the freshly initialized `new_record` dict — all
violation counters 0, status "Pending", empty feedback.  Python's
`candidate_name or "Unknown"` treats the empty string as missing. -/
def newTestResult (freshId q : String) (cid em : Option String)
    (name : String) : Record :=
  { id := freshId, question_set_id := q, candidate_id := cid,
    candidate_email := em,
    candidate_name := if name == "" then "Unknown" else name,
    status := "Pending", raw_feedback := "", counters := Counters.zero }

/-- events.py lines 45-125, `find_or_create_test_result`, in the sequential
(no interleaving) semantics: look up by (question_set_id, candidate_id),
fall back to (question_set_id, candidate_email) with best-effort backfill
of a missing candidate_id, else insert a fresh zero-initialized row.
Returns the new store plus the row the caller goes on to use. -/
def find_or_create_test_result (db : List Record) (q : String)
    (cid em : Option String) (name freshId : String) :
    List Record × Record :=
  match db.find? (matchesById q cid) with
  | some r => (db, r)
  | none =>
    match em with
    | some emv =>
      match db.find? (matchesByEmail q emv) with
      | some r =>
        if r.candidate_id.isNone && cid.isSome then
          let r2 := { r with candidate_id := cid }
          (db.map (fun x => if x.id == r.id then r2 else x), r2)
        else (db, r)
      | none =>
        let nr := newTestResult freshId q cid em name
        (db ++ [nr], nr)
    | none =>
      let nr := newTestResult freshId q cid em name
      (db ++ [nr], nr)

/-- One `socketio.emit("violation_update", ...)` payload (events.py lines
188-193 and 198-203). -/
structure BroadcastPayload where
  candidate_email : Option String
  candidate_id : Option String
  question_set_id : String
  counts : Counters
deriving Repr, DecidableEq

/-- Outcome of one `suspicious_event` delivery: the record store afterwards,
the broadcasts emitted, and the rejection reason when the handler returned
early (in which case the store is untouched and nothing is broadcast). -/
structure HandleResult where
  db : List Record
  broadcasts : List BroadcastPayload
  rejected : Option String
deriving Repr, DecidableEq

/-- events.py lines 137-204, the `suspicious_event` handler, sequential
semantics.  Guards: missing question_set_id, missing both candidate
identifiers, and no positive increment among `VALID_COLUMNS` each return
early.  Otherwise the row is found or created, the merged counters
`existing + increment` are written back by row id, and two broadcasts are
emitted: the first from `payload = {**existing_record, **update_data}`
(post-merge totals, lines 188-193), the second from the raw `data` values
(lines 198-203).  The `raw_feedback` append of line 173 is computed in the
source but commented out of `update_data` (line 178), so the stored
feedback is unchanged; `event_id` and any legacy violation name in the
payload are never read. -/
def handle_suspicious_event (db : List Record) (e : EventData)
    (freshId : String) : HandleResult :=
  match e.question_set_id with
  | none => { db := db, broadcasts := [], rejected := some "Missing question_set_id" }
  | some q =>
    if e.candidate_email.isNone && e.candidate_id.isNone then
      { db := db, broadcasts := [],
        rejected := some "Missing both candidate_email and candidate_id" }
    else if (VALID_COLUMNS.any fun col => decide (0 < e.get col)) = false then
      { db := db, broadcasts := [],
        rejected := some "No valid violations to process" }
    else
      let name := e.candidate_name.getD "Unknown"
      let fc := find_or_create_test_result db q e.candidate_id
        e.candidate_email name freshId
      let rec0 := fc.2
      let merged := countersOf fun col => rec0.counters.get col + posIncrement e col
      let db2 := fc.1.map fun x =>
        if x.id == rec0.id then { x with counters := merged } else x
      { db := db2,
        broadcasts :=
          [{ candidate_email := e.candidate_email, candidate_id := e.candidate_id,
             question_set_id := q, counts := merged },
           { candidate_email := e.candidate_email, candidate_id := e.candidate_id,
             question_set_id := q, counts := countersOf fun col => e.get col }],
        rejected := none }

/-- An `/api/test/submit` request body (app.py line 108), restricted to the
claim-relevant keys. -/
structure SubmitData where
  question_set_id : Option String := none
  candidate_email : Option String := none
  exam_id : Option String := none
  candidate_id : Option String := none
  candidate_name : Option String := none
  status : Option String := none
  raw_feedback : Option String := none
  fields : List (String × Int) := []
deriving Repr, DecidableEq

/-- `data.get(col, 0)` on a submit request body. -/
def SubmitData.get (d : SubmitData) (col : String) : Int :=
  (d.fields.lookup col).getD 0

/-- app.py lines 142 and 165: the `[VIOLATIONS]` summary line built from the
non-zero violation entries, `col=val` pairs joined by ", " (the Python set
iteration order is modelled as the `VALID_COLUMNS` order). -/
def violationSummary (d : SubmitData) : String :=
  String.intercalate ", "
    ((VALID_COLUMNS.filter fun col => decide (0 < d.get col)).map
      fun col => col ++ "=" ++ toString (d.get col))

/-- Whether the request carries any strictly positive violation entry
(app.py line 117, `non_zero_violations`). -/
def SubmitData.hasViolations (d : SubmitData) : Bool :=
  VALID_COLUMNS.any fun col => decide (0 < d.get col)

/-- app.py lines 128-157, the update branch of `submit_test` applied to the
matched row: feedback gains one `[VIOLATIONS]` summary line appended to
the existing text (no truncation of any kind), and every counter becomes
`row.get(col, 0) + data.get(col, 0)` (unfiltered deltas).  Score columns
are elided. -/
def submitMergeRow (row : Record) (d : SubmitData) : Record :=
  let fb := row.raw_feedback ++
    (if d.hasViolations then "\n[VIOLATIONS] " ++ violationSummary d else "")
  { row with
    raw_feedback := fb,
    counters := countersOf fun col => row.counters.get col + d.get col }

/-- app.py lines 160-189, the insert branch of `submit_test`: a fresh row
built from the request, with `**non_zero_violations` supplying only the
strictly positive counters, status defaulting to "Pending", and the
request's feedback plus one `[VIOLATIONS]` line when any counter is
positive. -/
def submitCreateRecord (freshId : String) (d : SubmitData) (qs em : String) :
    Record :=
  let fb := d.raw_feedback.getD "" ++
    (if d.hasViolations then "\n[VIOLATIONS] " ++ violationSummary d else "")
  { id := freshId, exam_id := d.exam_id, question_set_id := qs,
    candidate_id := d.candidate_id, candidate_email := some em,
    candidate_name := (d.candidate_name).getD "",
    status := (d.status).getD "Pending", raw_feedback := fb,
    counters := countersOf fun col => if 0 < d.get col then d.get col else 0 }

/-- app.py lines 102-204, `submit_test`: reject when question_set_id or
candidate_email is missing; otherwise look the row up by
(question_set_id, candidate_email, exam_id) and merge into it, or insert a
fresh row.  The `eq("exam_id", ...)` filter of line 124 follows the same
SQL convention as the candidate_id filter of `matchesById`: an equality
filter against a missing (NULL) value matches no row, hence the `isSome`
conjunct.  Returns the store and the error message, if any. -/
def submit_test (db : List Record) (d : SubmitData) (freshId : String) :
    List Record × Option String :=
  match d.question_set_id, d.candidate_email with
  | some qs, some em =>
    match db.find? (fun r => r.question_set_id == qs &&
        r.candidate_email == some em && d.exam_id.isSome &&
        r.exam_id == d.exam_id) with
    | some row =>
      let row2 := submitMergeRow row d
      (db.map (fun x => if x.id == row.id then row2 else x), none)
    | none => (db ++ [submitCreateRecord freshId d qs em], none)
  | _, _ => (db, some "Missing question_set_id or candidate_email")

/-- An `/api/violations/manual` request body (app.py line 212), restricted
to the claim-relevant keys. -/
structure ManualData where
  question_set_id : Option String := none
  candidate_email : Option String := none
  candidate_name : Option String := none
  candidate_id : Option String := none
  status : Option String := none
  raw_feedback : Option String := none
  fields : List (String × Int) := []
deriving Repr, DecidableEq

/-- `data.get(col, 0)` on a manual-violations request body. -/
def ManualData.get (d : ManualData) (col : String) : Int :=
  (d.fields.lookup col).getD 0

/-- app.py line 229: the default feedback summary of the manual endpoint,
`k=v` pairs for the positive entries joined by ", ". -/
def manualSummary (d : ManualData) : String :=
  String.intercalate ", "
    ((VALID_COLUMNS.filter fun col => decide (0 < d.get col)).map
      fun col => col ++ "=" ++ toString (d.get col))

/-- app.py lines 219-237: the `params` record of `insert_manual_violations`.
Every violation counter is set to the absolute `data.get(col, 0)` of the
request; status defaults to "Manual Entry"; `defaultQs` stands for the
timestamp-derived default question_set_id of line 221. -/
def manualParams (freshId : String) (d : ManualData) (defaultQs : String) :
    Record :=
  { id := freshId,
    question_set_id := (d.question_set_id).getD defaultQs,
    candidate_id := d.candidate_id,
    candidate_email := some ((d.candidate_email).getD "manual@example.com"),
    candidate_name := (d.candidate_name).getD "Manual Entry",
    status := (d.status).getD "Manual Entry",
    raw_feedback := (d.raw_feedback).getD ("Manual violation entry: " ++ manualSummary d),
    counters := countersOf fun col => d.get col }

/-- The Supabase `upsert(params, on_conflict=[candidate_email,
question_set_id])` of app.py line 242: a row whose (candidate_email,
question_set_id) pair collides is replaced by the supplied columns;
otherwise the row is inserted. -/
def upsertByEmailQs (db : List Record) (p : Record) : List Record :=
  if db.any (fun r => r.candidate_email == p.candidate_email &&
      r.question_set_id == p.question_set_id) then
    db.map fun r =>
      if r.candidate_email == p.candidate_email &&
          r.question_set_id == p.question_set_id then p else r
  else db ++ [p]

/-- app.py lines 206-257, `insert_manual_violations`: build `params` from
the request and upsert it on (candidate_email, question_set_id). -/
def insert_manual_violations (db : List Record) (d : ManualData)
    (freshId defaultQs : String) : List Record :=
  upsertByEmailQs db (manualParams freshId d defaultQs)

/-! Primitive store operations of the handler, exposed separately so that
interleaved executions of two concurrent handler invocations can be written
out step by step.  Each primitive is one Supabase call of the source. -/

/-- events.py lines 109-111: the insert of `find_or_create_test_result`,
against a store whose server enforces uniqueness of
(question_set_id, candidate_id): a conflicting insert raises (returns
`none`), which the source catches at line 113 and answers by re-running the
select (lines 116-121). -/
def tryInsert (db : List Record) (r : Record) : Option (List Record) :=
  if db.any (matchesById r.question_set_id r.candidate_id) then none
  else some (db ++ [r])

/-- events.py lines 166-169: the merged counters computed from the snapshot
`existing_record` that this worker read, plus the event's positive
increments. -/
def mergeFromSnapshot (snap : Record) (e : EventData) : Counters :=
  countersOf fun col => snap.counters.get col + posIncrement e col

/-- events.py line 182: `update(update_data).eq("id", ...)` — overwrite the
violation columns of the row with the given id with the merged values. -/
def applyUpdate (db : List Record) (rid : String) (c : Counters) :
    List Record :=
  db.map fun x => if x.id == rid then { x with counters := c } else x

/-! Concrete inputs used by the claim theorems below. -/

/-- Scenario A, first event: `{tab_switches: 1}` for (exam-1, c1). -/
def evA1 : EventData :=
  { question_set_id := some "exam-1", candidate_id := some "c1",
    fields := [("tab_switches", 1)] }

/-- Scenario A, second event: `{tab_switches: 2, inactivities: 1}`. -/
def evA2 : EventData :=
  { question_set_id := some "exam-1", candidate_id := some "c1",
    fields := [("tab_switches", 2), ("inactivities", 1)] }

/-- Scenario B, worker A's first event: `{face_not_visible: 1}` for
(exam-2, c2). -/
def evB_A : EventData :=
  { question_set_id := some "exam-2", candidate_id := some "c2",
    fields := [("face_not_visible", 1)] }

/-- Scenario B, worker B's first event: `{tab_switches: 1}` for the same
session. -/
def evB_B : EventData :=
  { question_set_id := some "exam-2", candidate_id := some "c2",
    fields := [("tab_switches", 1)] }

/-- The fresh rows the two Scenario B workers build (events.py lines
82-107). -/
def recB_A : Record := newTestResult "idA" "exam-2" (some "c2") none "Unknown"

/-- Worker B's candidate fresh row for Scenario B. -/
def recB_B : Record := newTestResult "idB" "exam-2" (some "c2") none "Unknown"

/-- One interleaving of two concurrent first-event deliveries for Scenario
B, written with the primitive store operations the handler performs in
order (select, insert, merge-from-snapshot, update):
both workers run the select of `find_or_create_test_result` against the
empty store and see no row; worker A's insert succeeds; worker B's insert
conflicts and its retry select returns A's zero-counter row; worker A then
writes its merge computed from its zero-counter snapshot, and worker B
writes its merge computed from its own zero-counter snapshot last. -/
def scenarioB_db : List Record :=
  let db1 := (tryInsert [] recB_A).getD []
  let snapB := (db1.find? (matchesById "exam-2" (some "c2"))).getD recB_B
  let db2 := applyUpdate db1 recB_A.id (mergeFromSnapshot recB_A evB_A)
  applyUpdate db2 snapB.id (mergeFromSnapshot snapB evB_B)

/-- A replayed event carrying a client event identifier, for the
deduplication claim: delivered twice with the same `event_id`. -/
def evC3 : EventData :=
  { question_set_id := some "exam-3", candidate_id := some "c3",
    event_id := some "evt-1", fields := [("tab_switches", 1)] }

/-- The store after the first delivery of `evC3`. -/
def c3_db1 : List Record := (handle_suspicious_event [] evC3 "r31").db

/-- An existing row used by the audit-trail claim: empty feedback, zero
counters, and a present exam_id so the submit lookup can match it. -/
def rC6 : Record :=
  { id := "r6", exam_id := some "ex-6", question_set_id := "exam-6",
    candidate_email := some "c6@example.com", status := "Pending" }

/-- A submit request carrying one positive violation for `rC6`'s session,
with the same exam_id as the stored row. -/
def dC6 : SubmitData :=
  { question_set_id := some "exam-6", candidate_email := some "c6@example.com",
    exam_id := some "ex-6", fields := [("tab_switches", 1)] }

/-- A suspicious event for `rC6`'s session (matched by candidate_email). -/
def evC6 : EventData :=
  { question_set_id := some "exam-6", candidate_email := some "c6@example.com",
    fields := [("tab_switches", 2)] }

/-- An existing row with `tab_switches = 1`, for the broadcast-snapshot
claim. -/
def rC7 : Record :=
  { id := "r7", question_set_id := "exam-7", candidate_id := some "c7",
    counters := ⟨1, 0, 0, 0, 0, 0, 0⟩ }

/-- A second event `{tab_switches: 2}` for `rC7`'s session, so that the
post-merge total (3) differs from the event's own value (2). -/
def evC7 : EventData :=
  { question_set_id := some "exam-7", candidate_id := some "c7",
    fields := [("tab_switches", 2)] }

/-- A legacy-shaped event: a resolvable session key plus one legacy
violation name ("tab_switch", implicit count 1) and no modern category
fields. -/
def evC8 : EventData :=
  { question_set_id := some "exam-8", candidate_id := some "c8",
    legacy_violation := some "tab_switch" }

/-- A manual-violations request creating a fresh record with a non-zero
counter, for the record-shape claim. -/
def dC9 : ManualData :=
  { question_set_id := some "exam-9", candidate_email := some "c9@example.com",
    fields := [("tab_switches", 5)] }

/-- An existing row whose (candidate_email, question_set_id) matches
`dC10`, with prior counter `tab_switches = 7`. -/
def rC10 : Record :=
  { id := "r10", question_set_id := "exam-10",
    candidate_email := some "c10@example.com",
    counters := ⟨7, 0, 0, 0, 0, 0, 0⟩ }

/-- A manual-violations request supplying the absolute value
`tab_switches = 5` for `rC10`'s session. -/
def dC10 : ManualData :=
  { question_set_id := some "exam-10",
    candidate_email := some "c10@example.com",
    fields := [("tab_switches", 5)] }

/-- An existing row with `tab_switches = 1` for the additivity witness. -/
def rC1w : Record :=
  { id := "rw1", question_set_id := "exam-1", candidate_id := some "c1",
    counters := ⟨1, 0, 0, 0, 0, 0, 0⟩ }

/-- A base event for the unknown-category witness. -/
def evC4 : EventData :=
  { question_set_id := some "exam-4", candidate_id := some "c4",
    fields := [("tab_switches", 3)] }

/-- An event missing its question_set_id, for the rejection witness
(Scenario C). -/
def evC5 : EventData :=
  { candidate_id := some "c5", fields := [("tab_switches", 1)] }

/-- Reading a counter built by `countersOf f` returns `f` at every
recognized column. -/
theorem countersOf_get (f : String → Int) {col : String}
    (h : col ∈ VALID_COLUMNS) : (countersOf f).get col = f col := by
  simp only [VALID_COLUMNS, List.mem_cons, List.not_mem_nil, or_false] at h
  rcases h with rfl | rfl | rfl | rfl | rfl | rfl | rfl <;> rfl

/-- Unfolding of the handler on the path where the row is found by the
(question_set_id, candidate_id) lookup and the event has a positive
increment: the row's counters are merged in place and two broadcasts are
emitted, the first carrying the merged totals and the second the event's
raw values. -/
theorem handle_found (db : List Record) (e : EventData) (fid q : String)
    (r : Record) (hq : e.question_set_id = some q)
    (hfind : db.find? (matchesById q e.candidate_id) = some r)
    (hpos : (VALID_COLUMNS.any fun col => decide (0 < e.get col)) = true) :
    handle_suspicious_event db e fid =
      { db := db.map fun x =>
          if x.id == r.id then
            { x with counters :=
                countersOf fun col => r.counters.get col + posIncrement e col }
          else x,
        broadcasts :=
          [{ candidate_email := e.candidate_email, candidate_id := e.candidate_id,
             question_set_id := q,
             counts := countersOf fun col => r.counters.get col + posIncrement e col },
           { candidate_email := e.candidate_email, candidate_id := e.candidate_id,
             question_set_id := q, counts := countersOf fun col => e.get col }],
        rejected := none } := by
  have hm : matchesById q e.candidate_id r = true := List.find?_some hfind
  have hcid : e.candidate_id.isSome = true := by
    simp only [matchesById, Bool.and_eq_true] at hm
    exact hm.1.2
  have hnone : e.candidate_id.isNone = false := by
    cases h : e.candidate_id with
    | none => rw [h] at hcid; simp at hcid
    | some a => rfl
  have hguard : (e.candidate_email.isNone && e.candidate_id.isNone) = false := by
    rw [hnone, Bool.and_false]
  simp [handle_suspicious_event, hq, hguard, hpos, find_or_create_test_result,
    hfind]

/-- C1: applying a violation event to an existing aggregate record is
additive — each recognized category's stored counter afterwards equals its
previous stored value plus the event's positive delta for that category
(`posIncrement`), and counters of categories with no positive entry in the
event are unchanged; in particular, a fresh session receiving
`{tab_switches: 1}` then `{tab_switches: 2, inactivities: 1}` ends with
counters `{tab_switches: 3, inactivities: 1}` and all others zero
(Scenario A). -/
theorem c1_increment_application_additive (db : List Record) (e : EventData)
    (fid q : String) (r : Record) (hq : e.question_set_id = some q)
    (hfind : db.find? (matchesById q e.candidate_id) = some r)
    (hpos : (VALID_COLUMNS.any fun col => decide (0 < e.get col)) = true) :
    ((handle_suspicious_event db e fid).rejected = none ∧
     ∀ r' ∈ (handle_suspicious_event db e fid).db, r'.id = r.id →
       ∀ col ∈ VALID_COLUMNS,
         r'.counters.get col = r.counters.get col + posIncrement e col ∧
         (e.get col ≤ 0 → r'.counters.get col = r.counters.get col)) ∧
    ((handle_suspicious_event (handle_suspicious_event [] evA1 "r1").db
        evA2 "r2").db.map fun r => r.counters) = [⟨3, 1, 0, 0, 0, 0, 0⟩] := by
  constructor
  · rw [handle_found db e fid q r hq hfind hpos]
    refine ⟨rfl, ?_⟩
    intro r' hr' hid col hcol
    rcases List.mem_map.mp hr' with ⟨x, hx, rfl⟩
    by_cases hxy : (x.id == r.id) = true
    · simp only [hxy, if_true]
      have hmain : (countersOf fun c => r.counters.get c + posIncrement e c).get col
          = r.counters.get col + posIncrement e col := countersOf_get _ hcol
      refine ⟨hmain, fun hle => ?_⟩
      rw [hmain, posIncrement, if_neg (not_lt.mpr hle), add_zero]
    · simp only [hxy, if_false] at hid ⊢
      exact absurd (beq_iff_eq.mpr hid) hxy
  · decide

/-- Witness for C1 at a concrete store and event. -/
theorem c1_increment_application_additive_witness :
    (evA2.question_set_id = some "exam-1") ∧
    ([rC1w].find? (matchesById "exam-1" evA2.candidate_id) = some rC1w) ∧
    ((VALID_COLUMNS.any fun col => decide (0 < evA2.get col)) = true) ∧
    (((handle_suspicious_event [rC1w] evA2 "w1").rejected = none ∧
      ∀ r' ∈ (handle_suspicious_event [rC1w] evA2 "w1").db, r'.id = rC1w.id →
        ∀ col ∈ VALID_COLUMNS,
          r'.counters.get col = rC1w.counters.get col + posIncrement evA2 col ∧
          (evA2.get col ≤ 0 → r'.counters.get col = rC1w.counters.get col)) ∧
     ((handle_suspicious_event (handle_suspicious_event [] evA1 "r1").db
         evA2 "r2").db.map fun r => r.counters) = [⟨3, 1, 0, 0, 0, 0, 0⟩]) :=
  ⟨rfl, by decide, by decide,
   c1_increment_application_additive [rC1w] evA2 "w1" "exam-1" rC1w rfl
     (by decide) (by decide)⟩

/-- C2: refuted interleaving for Scenario B.  Both workers run the select
of `find_or_create_test_result` against the empty store, worker A's insert
succeeds, worker B's insert hits the uniqueness conflict and its retry
select returns A's zero-counter row; each worker then writes the merge it
computed from its own snapshot, B last.  Exactly one row remains, but its
counters are `{tab_switches: 1, face_not_visible: 0}` — worker A's
`face_not_visible` increment is lost, while the claim requires
`{face_not_visible: 1, tab_switches: 1}`. -/
theorem c2_concurrent_first_events_lose_update :
    tryInsert ((tryInsert [] recB_A).getD []) recB_B = none ∧
    scenarioB_db.length = 1 ∧
    (scenarioB_db.map fun r =>
      (r.counters.tab_switches, r.counters.face_not_visible)) = [(1, 0)] := by
  decide

/-- C3: refuted.  The handler never reads any client event identifier
(there is no deduplication anywhere in the source), so redelivering the
identical event with the same `event_id` is processed again: the stored
`tab_switches` counter goes from 1 to 2 instead of staying at 1, and the
redelivery is not rejected. -/
theorem c3_replayed_event_not_deduplicated :
    (c3_db1.map fun r => r.counters.tab_switches) = [1] ∧
    (handle_suspicious_event c3_db1 evC3 "r32").rejected = none ∧
    ((handle_suspicious_event c3_db1 evC3 "r32").db.map
      fun r => r.counters.tab_switches) = [2] := by
  decide

/-- C4: a field whose name is not a recognized category contributes nothing
to the handler's outcome — the resulting store and broadcasts are exactly
those of the same event without that field, so recognized fields in the
same event are still applied normally. -/
theorem c4_unknown_category_drop (db : List Record) (e : EventData)
    (fid k : String) (v : Int) (hk : k ∉ VALID_COLUMNS) :
    handle_suspicious_event db { e with fields := (k, v) :: e.fields } fid
      = handle_suspicious_event db e fid := by
  have hne : ∀ col ∈ VALID_COLUMNS, (col == k) = false := by
    intro col hcol
    rcases Bool.eq_false_or_eq_true (col == k) with h | h
    · exact absurd (beq_iff_eq.mp h ▸ hcol) hk
    · exact h
  have hget : ∀ col ∈ VALID_COLUMNS,
      EventData.get { e with fields := (k, v) :: e.fields } col = e.get col := by
    intro col hcol
    simp [EventData.get, List.lookup, hne col hcol]
  have h1 := hget "tab_switches" (by decide)
  have h2 := hget "inactivities" (by decide)
  have h3 := hget "text_selections" (by decide)
  have h4 := hget "copies" (by decide)
  have h5 := hget "pastes" (by decide)
  have h6 := hget "right_clicks" (by decide)
  have h7 := hget "face_not_visible" (by decide)
  obtain ⟨qs, em, cid, nm, eid, lv, fs⟩ := e
  cases qs with
  | none => rfl
  | some q =>
    simp only [handle_suspicious_event, VALID_COLUMNS, List.any_cons,
      List.any_nil, countersOf, posIncrement, find_or_create_test_result,
      h1, h2, h3, h4, h5, h6, h7]

/-- Witness for C4: adding a `screenshot` field to a concrete event leaves
the handler's outcome unchanged. -/
theorem c4_unknown_category_drop_witness :
    ("screenshot" ∉ VALID_COLUMNS) ∧
    handle_suspicious_event []
        { evC4 with fields := ("screenshot", 4) :: evC4.fields } "w4"
      = handle_suspicious_event [] evC4 "w4" :=
  ⟨by decide, c4_unknown_category_drop [] evC4 "w4" "screenshot" 4 (by decide)⟩

/-- C5: an event missing its question_set_id, or missing both candidate
identifiers, or whose normalized increments are all zero, is rejected
non-fatally: the store is unchanged (no record created, no counter
changed), no broadcast is emitted, and a rejection reason is reported. -/
theorem c5_rejection_semantics (db : List Record) (e : EventData)
    (fid : String)
    (h : e.question_set_id = none ∨
         (e.candidate_email = none ∧ e.candidate_id = none) ∨
         ∀ col ∈ VALID_COLUMNS, posIncrement e col = 0) :
    (handle_suspicious_event db e fid).db = db ∧
    (handle_suspicious_event db e fid).broadcasts = [] ∧
    (handle_suspicious_event db e fid).rejected.isSome = true := by
  rcases h with h1 | ⟨hem, hcid⟩ | h3
  · simp [handle_suspicious_event, h1]
  · cases hq : e.question_set_id with
    | none => simp [handle_suspicious_event, hq]
    | some q => simp [handle_suspicious_event, hq, hem, hcid]
  · have hany : (VALID_COLUMNS.any fun col => decide (0 < e.get col)) = false := by
      rw [List.any_eq_false]
      intro col hcol
      have hz := h3 col hcol
      simp only [posIncrement] at hz
      by_cases hlt : 0 < e.get col
      · rw [if_pos hlt] at hz
        omega
      · simp [hlt]
    cases hq : e.question_set_id with
    | none => simp [handle_suspicious_event, hq]
    | some q =>
      by_cases hg : (e.candidate_email.isNone && e.candidate_id.isNone) = true
      · simp [handle_suspicious_event, hq, hg]
      · simp [handle_suspicious_event, hq, hg, hany]

/-- Witness for C5: Scenario C, an event with no question_set_id is
rejected with no record and no broadcast. -/
theorem c5_rejection_semantics_witness :
    (evC5.question_set_id = none ∨
     (evC5.candidate_email = none ∧ evC5.candidate_id = none) ∨
     ∀ col ∈ VALID_COLUMNS, posIncrement evC5 col = 0) ∧
    ((handle_suspicious_event [] evC5 "w5").db = [] ∧
     (handle_suspicious_event [] evC5 "w5").broadcasts = [] ∧
     (handle_suspicious_event [] evC5 "w5").rejected.isSome = true) :=
  ⟨Or.inl rfl, c5_rejection_semantics [] evC5 "w5" (Or.inl rfl)⟩

/-- C6: refuted in both directions.  A successful merge through the socket
handler appends no audit-trail entry at all (the `raw_feedback` write is
commented out of `update_data`), and the submit endpoint's merge path
appends one `[VIOLATIONS]` line to the ever-growing `raw_feedback` text on
every call with no cap of any kind: after three merge batches the trail
holds three entries, and each further batch appends another. -/
theorem c6_audit_trail :
    ((handle_suspicious_event [rC6] evC6 "r6b").rejected = none ∧
     ((handle_suspicious_event [rC6] evC6 "r6b").db.map
       fun r => (r.raw_feedback, r.counters.tab_switches)) = [("", 2)]) ∧
    ((submit_test ((submit_test ((submit_test [rC6] dC6 "s1").1)
        dC6 "s2").1) dC6 "s3").1.map fun r => r.raw_feedback)
      = [("\n[VIOLATIONS] tab_switches=1" ++ "\n[VIOLATIONS] tab_switches=1"
          ++ "\n[VIOLATIONS] tab_switches=1")] := by
  decide

/-- C7 counterexample: on a session whose stored `tab_switches` is 1, the
event `{tab_switches: 2}` makes the handler emit two broadcasts — the
first reports the stored total 3, but the second reports the event's raw
value 2, so not every broadcast carries the post-merge snapshot. -/
theorem c7_counterexample :
    ((handle_suspicious_event [rC7] evC7 "r7b").db.map
      fun r => r.counters.tab_switches) = [3] ∧
    ((handle_suspicious_event [rC7] evC7 "r7b").broadcasts.map
      fun b => b.counts.tab_switches) = [3, 2] := by
  decide

/-- C7 as amended: every applied event emits exactly two broadcasts; the
first carries the full post-merge stored totals of every recognized
category (equal to the updated record's counters), while the second
carries the event's own raw per-category values instead of totals. -/
theorem c7_broadcast_post_merge_snapshot (db : List Record) (e : EventData)
    (fid q : String) (r : Record) (hq : e.question_set_id = some q)
    (hfind : db.find? (matchesById q e.candidate_id) = some r)
    (hpos : (VALID_COLUMNS.any fun col => decide (0 < e.get col)) = true) :
    (handle_suspicious_event db e fid).broadcasts =
      [{ candidate_email := e.candidate_email, candidate_id := e.candidate_id,
         question_set_id := q,
         counts := countersOf fun col => r.counters.get col + posIncrement e col },
       { candidate_email := e.candidate_email, candidate_id := e.candidate_id,
         question_set_id := q, counts := countersOf fun col => e.get col }] ∧
    ∀ r' ∈ (handle_suspicious_event db e fid).db, r'.id = r.id →
      r'.counters = countersOf fun col => r.counters.get col + posIncrement e col := by
  rw [handle_found db e fid q r hq hfind hpos]
  refine ⟨rfl, ?_⟩
  intro r' hr' hid
  rcases List.mem_map.mp hr' with ⟨x, hx, rfl⟩
  by_cases hxy : (x.id == r.id) = true
  · simp only [hxy, if_true]
  · simp only [hxy, if_false] at hid ⊢
    exact absurd (beq_iff_eq.mpr hid) hxy

/-- Witness for the amended C7 at a concrete store and event. -/
theorem c7_broadcast_post_merge_snapshot_witness :
    (evC7.question_set_id = some "exam-7") ∧
    ([rC7].find? (matchesById "exam-7" evC7.candidate_id) = some rC7) ∧
    ((VALID_COLUMNS.any fun col => decide (0 < evC7.get col)) = true) ∧
    ((handle_suspicious_event [rC7] evC7 "w7").broadcasts =
      [{ candidate_email := evC7.candidate_email, candidate_id := evC7.candidate_id,
         question_set_id := "exam-7",
         counts := countersOf fun col => rC7.counters.get col + posIncrement evC7 col },
       { candidate_email := evC7.candidate_email, candidate_id := evC7.candidate_id,
         question_set_id := "exam-7", counts := countersOf fun col => evC7.get col }] ∧
     ∀ r' ∈ (handle_suspicious_event [rC7] evC7 "w7").db, r'.id = rC7.id →
       r'.counters = countersOf fun col => rC7.counters.get col + posIncrement evC7 col) :=
  ⟨rfl, by decide, by decide,
   c7_broadcast_post_merge_snapshot [rC7] evC7 "w7" "exam-7" rC7 rfl
     (by decide) (by decide)⟩

/-- C8: refuted.  A legacy-shaped event (resolvable session key plus one
legacy violation name with implicit count 1) is not translated: although
"tab_switch" is a key of `LEGACY_MAP`, the handler never consults the map
(it is defined and never used), finds no positive recognized-category
field, and rejects the event instead of applying `{tab_switches: 1}`. -/
theorem c8_legacy_event_not_translated :
    (evC8.legacy_violation = some "tab_switch") ∧
    (("tab_switch", "tab_switches") ∈ LEGACY_MAP) ∧
    handle_suspicious_event [] evC8 "r8" =
      { db := [], broadcasts := [],
        rejected := some "No valid violations to process" } := by
  decide

/-- C9 counterexample: the manual-violations endpoint is a creation path
that makes a record whose `tab_switches` counter is 5 (not zero) and whose
status is "Manual Entry" (not pending), so the record-shape invariant does
not hold for every creation path of the program. -/
theorem c9_counterexample :
    ((insert_manual_violations [] dC9 "r9" "dq9").map
      fun r => (r.status, r.counters.tab_switches)) = [("Manual Entry", 5)] := by
  decide

/-- C9 as amended: every record created by the event-intake path
(`find_or_create_test_result`) starts with every recognized category's
counter zero, status pending, and an empty audit trail; the submit and
manual-violations endpoints, by contrast, create records carrying
client-supplied counters, status and feedback. -/
theorem c9_event_path_creation_defaults (db : List Record) (q : String)
    (cid em : Option String) (name fid : String)
    (h1 : db.find? (matchesById q cid) = none)
    (h2 : ∀ ev, em = some ev → db.find? (matchesByEmail q ev) = none) :
    (find_or_create_test_result db q cid em name fid).1
      = db ++ [newTestResult fid q cid em name] ∧
    (find_or_create_test_result db q cid em name fid).2
      = newTestResult fid q cid em name ∧
    (newTestResult fid q cid em name).status = "Pending" ∧
    (newTestResult fid q cid em name).raw_feedback = "" ∧
    ∀ col ∈ VALID_COLUMNS,
      (newTestResult fid q cid em name).counters.get col = 0 := by
  refine ⟨?_, ?_, rfl, rfl, ?_⟩
  · cases em with
    | none => simp [find_or_create_test_result, h1]
    | some ev => simp [find_or_create_test_result, h1, h2 ev rfl]
  · cases em with
    | none => simp [find_or_create_test_result, h1]
    | some ev => simp [find_or_create_test_result, h1, h2 ev rfl]
  · intro col hcol
    simp only [VALID_COLUMNS, List.mem_cons, List.not_mem_nil, or_false] at hcol
    rcases hcol with rfl | rfl | rfl | rfl | rfl | rfl | rfl <;> rfl

/-- Witness for the amended C9 on the empty store. -/
theorem c9_event_path_creation_defaults_witness :
    (([] : List Record).find? (matchesById "exam-9w" (some "c9w")) = none) ∧
    ((find_or_create_test_result [] "exam-9w" (some "c9w") none "N" "w9").1
       = [] ++ [newTestResult "w9" "exam-9w" (some "c9w") none "N"] ∧
     (find_or_create_test_result [] "exam-9w" (some "c9w") none "N" "w9").2
       = newTestResult "w9" "exam-9w" (some "c9w") none "N" ∧
     (newTestResult "w9" "exam-9w" (some "c9w") none "N").status = "Pending" ∧
     (newTestResult "w9" "exam-9w" (some "c9w") none "N").raw_feedback = "" ∧
     ∀ col ∈ VALID_COLUMNS,
       (newTestResult "w9" "exam-9w" (some "c9w") none "N").counters.get col = 0) :=
  ⟨rfl, c9_event_path_creation_defaults [] "exam-9w" (some "c9w") none "N" "w9"
    rfl (fun _ h => Option.noConfusion h)⟩

/-- C10: the manual violations endpoint overwrites rather than accumulates:
after a request, every row whose (candidate_email, question_set_id) pair
matches the upserted parameters holds, for every recognized category,
exactly the absolute counter value supplied in the request. -/
theorem c10_manual_endpoint_overwrites (db : List Record) (d : ManualData)
    (fid dq : String) :
    ∀ r' ∈ insert_manual_violations db d fid dq,
      r'.candidate_email = (manualParams fid d dq).candidate_email →
      r'.question_set_id = (manualParams fid d dq).question_set_id →
      ∀ col ∈ VALID_COLUMNS, r'.counters.get col = d.get col := by
  intro r' hr' hem hqs col hcol
  have hcget : (manualParams fid d dq).counters.get col = d.get col := by
    simp only [manualParams]
    exact countersOf_get _ hcol
  simp only [insert_manual_violations, upsertByEmailQs] at hr'
  by_cases hany : (db.any fun r =>
      r.candidate_email == (manualParams fid d dq).candidate_email &&
      r.question_set_id == (manualParams fid d dq).question_set_id) = true
  · rw [if_pos hany] at hr'
    rcases List.mem_map.mp hr' with ⟨x, hx, rfl⟩
    by_cases hm : (x.candidate_email == (manualParams fid d dq).candidate_email &&
        x.question_set_id == (manualParams fid d dq).question_set_id) = true
    · simp only [hm, if_true]
      exact hcget
    · rw [if_neg hm] at hem hqs
      exact absurd (by simp [hem, hqs]) hm
  · rw [if_neg hany] at hr'
    rcases List.mem_append.mp hr' with hin | hin
    · exfalso
      have hfx := (List.any_eq_false.mp (Bool.eq_false_iff.mpr hany)) r' hin
      simp [hem, hqs] at hfx
    · rcases List.mem_singleton.mp hin with rfl
      exact hcget

/-- Witness for C10: a matching row with prior `tab_switches = 7` ends with
exactly the requested value 5, not 7 + 5. -/
theorem c10_manual_endpoint_overwrites_witness :
    (manualParams "w10" dC10 "dq" ∈ insert_manual_violations [rC10] dC10 "w10" "dq") ∧
    ((manualParams "w10" dC10 "dq").counters.get "tab_switches"
      = dC10.get "tab_switches") ∧
    (rC10.counters.get "tab_switches" + dC10.get "tab_switches"
      ≠ (manualParams "w10" dC10 "dq").counters.get "tab_switches") :=
  ⟨by decide,
   c10_manual_endpoint_overwrites [rC10] dC10 "w10" "dq"
     (manualParams "w10" dC10 "dq") (by decide) rfl rfl "tab_switches" (by decide),
   by decide⟩

end ExamBackend
